import Mathlib

set_option maxRecDepth 8192

/-!
Shallow embedding of the two CWU50 DRM panel driver variants
(`panel-clockwork-cwu50.c` and `panel-cw-cwu50.c`).

Each lifecycle callback is modelled as a pure function from an
environment `Env` (the return values the external capabilities would
produce during the call: regulator enable and disable, DCS command
writes, table writes indexed by position) to the integer return value of
the C function together with the ordered trace of hardware effects it
performs.  The trace events record regulator operations, reset-GPIO
levels, blocking delays (microsecond lower and upper bound, from
`usleep_range` and `msleep`) and DSI transport writes, each tagged with
the return code the transport reported.  The `panel-cw-cwu50.c` variant
additionally threads its `prepared` flag as explicit state.
-/

namespace CWU50

/-- The two regulator rails of the panel. -/
inductive Rail
  | vci
  | iovcc
deriving DecidableEq, Repr

/-- DCS commands issued outside the init table. -/
inductive DcsCmd
  | exitSleep
  | displayOn
  | tearOnVblank
  | displayOff
  | enterSleep
deriving DecidableEq, Repr

/-- One observable hardware effect. -/
inductive Ev
  | regEnable (r : Rail) (ret : Int)
  | regDisable (r : Rail) (ret : Int)
  | resetSet (level : Bool)
  | sleep (lo hi : Nat)
  | dcsWrite (reg val : Nat) (ret : Int)
  | dcs (c : DcsCmd) (ret : Int)
deriving DecidableEq, Repr

/-- Return values delivered by the external capabilities during one call.
`write i` is the return value of the `mipi_dsi_dcs_write_buffer` call for
table entry `i`; a negative value is a failure, as in the C code. -/
structure Env where
  iovccEnable : Int
  vciEnable : Int
  write : Nat → Int
  exitSleep : Int
  displayOn : Int
  tearOn : Int
  displayOff : Int
  enterSleep : Int
  vciDisable : Int
  iovccDisable : Int

/-- Event is a successful DSI transport write. -/
def isWriteSucc : Ev → Bool
  | Ev.dcsWrite _ _ r => decide (0 ≤ r)
  | Ev.dcs _ r => decide (0 ≤ r)
  | _ => false

/-- Event is a failed DSI transport write. -/
def isWriteFail : Ev → Bool
  | Ev.dcsWrite _ _ r => decide (r < 0)
  | Ev.dcs _ r => decide (r < 0)
  | _ => false

/-- Event is an exit-sleep-mode DCS command. -/
def isExitSleepCmd : Ev → Bool
  | Ev.dcs DcsCmd.exitSleep _ => true
  | _ => false

/-- Number of successful transport writes in a trace. -/
def writeSuccCount (tr : List Ev) : Nat := tr.countP isWriteSucc

/-- Number of failed transport writes in a trace. -/
def writeFailCount (tr : List Ev) : Nat := tr.countP isWriteFail

/-- Level of the reset line after the trace has run (`none` if the trace
never drove the line). -/
def finalReset (tr : List Ev) : Option Bool :=
  tr.foldl (fun acc e => match e with | Ev.resetSet b => some b | _ => acc) none

/-- The init-table transmission loop shared verbatim by both variants:
write each entry in order, return the first negative transport result
immediately, otherwise 0. `i` is the index of the first entry of `cmds`
in the full table. -/
def initLoop (env : Env) : List (Nat × Nat) → Nat → Int × List Ev
  | [], _ => (0, [])
  | (reg, val) :: rest, i =>
    let ret := env.write i
    if ret < 0 then
      (ret, [Ev.dcsWrite reg val ret])
    else
      let r := initLoop env rest (i + 1)
      (r.1, Ev.dcsWrite reg val ret :: r.2)

/-- Trace of a fully successful transmission of `cmds` starting at index
`i` (used only to state theorems about `initLoop`). -/
def okTrace (env : Env) : List (Nat × Nat) → Nat → List Ev
  | [], _ => []
  | (reg, val) :: rest, i => Ev.dcsWrite reg val (env.write i) :: okTrace env rest (i + 1)

namespace Clockwork

/-- Init command table of `panel-clockwork-cwu50.c` (`cwu50_panel_init_cmds`),
as (register, value) byte pairs in source order. -/
def cwu50_panel_init_cmds : List (Nat × Nat) := [
  (0xE0, 0x00), (0xE1, 0x93), (0xE2, 0x65), (0xE3, 0xF8), (0x70, 0x20), (0x71, 0x13),
  (0x72, 0x06), (0x75, 0x03), (0xE0, 0x01), (0x00, 0x00), (0x01, 0x47), (0x03, 0x00),
  (0x04, 0x4D), (0x0C, 0x64), (0x17, 0x00), (0x18, 0xBF), (0x19, 0x00), (0x1A, 0x00),
  (0x1B, 0xBF), (0x1C, 0x00), (0x1F, 0x7E), (0x20, 0x24), (0x21, 0x24), (0x22, 0x4E),
  (0x24, 0xFE), (0x37, 0x09), (0x38, 0x04), (0x3C, 0x76), (0x3D, 0xFF), (0x3E, 0xFF),
  (0x3F, 0x7F), (0x40, 0x04), (0x41, 0xA0), (0x44, 0x11), (0x55, 0x02), (0x56, 0x01),
  (0x57, 0x49), (0x58, 0x09), (0x59, 0x2A), (0x5A, 0x1A), (0x5B, 0x1A), (0x5D, 0x78),
  (0x5E, 0x6E), (0x5F, 0x66), (0x60, 0x5E), (0x61, 0x60), (0x62, 0x54), (0x63, 0x5C),
  (0x64, 0x47), (0x65, 0x5F), (0x66, 0x5D), (0x67, 0x5B), (0x68, 0x76), (0x69, 0x61),
  (0x6A, 0x63), (0x6B, 0x50), (0x6C, 0x45), (0x6D, 0x34), (0x6E, 0x1C), (0x6F, 0x07),
  (0x70, 0x78), (0x71, 0x6E), (0x72, 0x66), (0x73, 0x5E), (0x74, 0x60), (0x75, 0x54),
  (0x76, 0x5C), (0x77, 0x47), (0x78, 0x5F), (0x79, 0x5D), (0x7A, 0x5B), (0x7B, 0x76),
  (0x7C, 0x61), (0x7D, 0x63), (0x7E, 0x50), (0x7F, 0x45), (0x80, 0x34), (0x81, 0x1C),
  (0x82, 0x07), (0xE0, 0x02), (0x00, 0x44), (0x01, 0x46), (0x02, 0x48), (0x03, 0x4A),
  (0x04, 0x40), (0x05, 0x42), (0x06, 0x1F), (0x07, 0x1F), (0x08, 0x1F), (0x09, 0x1F),
  (0x0A, 0x1F), (0x0B, 0x1F), (0x0C, 0x1F), (0x0D, 0x1F), (0x0E, 0x1F), (0x0F, 0x1F),
  (0x10, 0x1F), (0x11, 0x1F), (0x12, 0x1F), (0x13, 0x1F), (0x14, 0x1E), (0x15, 0x1F),
  (0x16, 0x45), (0x17, 0x47), (0x18, 0x49), (0x19, 0x4B), (0x1A, 0x41), (0x1B, 0x43),
  (0x1C, 0x1F), (0x1D, 0x1F), (0x1E, 0x1F), (0x1F, 0x1F), (0x20, 0x1F), (0x21, 0x1F),
  (0x22, 0x1F), (0x23, 0x1F), (0x24, 0x1F), (0x25, 0x1F), (0x26, 0x1F), (0x27, 0x1F),
  (0x28, 0x1F), (0x29, 0x1F), (0x2A, 0x1E), (0x2B, 0x1F), (0x2C, 0x0B), (0x2D, 0x09),
  (0x2E, 0x07), (0x2F, 0x05), (0x30, 0x03), (0x31, 0x01), (0x32, 0x1F), (0x33, 0x1F),
  (0x34, 0x1F), (0x35, 0x1F), (0x36, 0x1F), (0x37, 0x1F), (0x38, 0x1F), (0x39, 0x1F),
  (0x3A, 0x1F), (0x3B, 0x1F), (0x3C, 0x1F), (0x3D, 0x1F), (0x3E, 0x1F), (0x3F, 0x1F),
  (0x40, 0x1F), (0x41, 0x1E), (0x42, 0x0A), (0x43, 0x08), (0x44, 0x06), (0x45, 0x04),
  (0x46, 0x02), (0x47, 0x00), (0x48, 0x1F), (0x49, 0x1F), (0x4A, 0x1F), (0x4B, 0x1F),
  (0x4C, 0x1F), (0x4D, 0x1F), (0x4E, 0x1F), (0x4F, 0x1F), (0x50, 0x1F), (0x51, 0x1F),
  (0x52, 0x1F), (0x53, 0x1F), (0x54, 0x1F), (0x55, 0x1F), (0x56, 0x1F), (0x57, 0x1E),
  (0x58, 0x40), (0x59, 0x00), (0x5A, 0x00), (0x5B, 0x30), (0x5C, 0x02), (0x5D, 0x40),
  (0x5E, 0x01), (0x5F, 0x02), (0x60, 0x00), (0x61, 0x01), (0x62, 0x02), (0x63, 0x65),
  (0x64, 0x66), (0x65, 0x00), (0x66, 0x00), (0x67, 0x74), (0x68, 0x06), (0x69, 0x65),
  (0x6A, 0x66), (0x6B, 0x10), (0x6C, 0x00), (0x6D, 0x04), (0x6E, 0x04), (0x6F, 0x88),
  (0x70, 0x00), (0x71, 0x00), (0x72, 0x06), (0x73, 0x7B), (0x74, 0x00), (0x75, 0x87),
  (0x76, 0x00), (0x77, 0x5D), (0x78, 0x17), (0x79, 0x1F), (0x7A, 0x00), (0x7B, 0x00),
  (0x7C, 0x00), (0x7D, 0x03), (0x7E, 0x7B), (0xE0, 0x04), (0x09, 0x10), (0xE0, 0x00),
  (0xE6, 0x02), (0xE7, 0x02)]

/-- Reset pulse of `panel-clockwork-cwu50.c` (`cwu50_reset`):
high, wait 5 to 10 ms, low, wait 1 to 10 ms, high, wait 10 to 20 ms. -/
def cwu50_reset : List Ev :=
  [Ev.resetSet true, Ev.sleep 5000 10000,
   Ev.resetSet false, Ev.sleep 1000 10000,
   Ev.resetSet true, Ev.sleep 10000 20000]

/-- Transmission of the init table (`cwu50_init_sequence`). -/
def cwu50_init_sequence (env : Env) : Int × List Ev :=
  initLoop env cwu50_panel_init_cmds 0

/-- `cwu50_prepare` of `panel-clockwork-cwu50.c`: enable iovcc, ramp
delay, enable vci (disabling iovcc on failure), reset pulse, init
sequence (on failure: reset low, delay, disable vci, delay, disable
iovcc). This variant keeps no prepared flag. -/
def cwu50_prepare (env : Env) : Int × List Ev :=
  if env.iovccEnable < 0 then
    (env.iovccEnable, [Ev.regEnable Rail.iovcc env.iovccEnable])
  else if env.vciEnable < 0 then
    (env.vciEnable,
     [Ev.regEnable Rail.iovcc env.iovccEnable, Ev.sleep 1000 5000,
      Ev.regEnable Rail.vci env.vciEnable,
      Ev.regDisable Rail.iovcc env.iovccDisable])
  else
    let init := cwu50_init_sequence env
    if init.1 < 0 then
      (init.1,
       [Ev.regEnable Rail.iovcc env.iovccEnable, Ev.sleep 1000 5000,
        Ev.regEnable Rail.vci env.vciEnable] ++ cwu50_reset ++ init.2 ++
       [Ev.resetSet false, Ev.sleep 10000 20000,
        Ev.regDisable Rail.vci env.vciDisable, Ev.sleep 5000 20000,
        Ev.regDisable Rail.iovcc env.iovccDisable])
    else
      (0,
       [Ev.regEnable Rail.iovcc env.iovccEnable, Ev.sleep 1000 5000,
        Ev.regEnable Rail.vci env.vciEnable] ++ cwu50_reset ++ init.2)

/-- `cwu50_enable` of `panel-clockwork-cwu50.c`: exit sleep, 120 ms,
display on, 10 ms, tear on; each failure returns immediately. -/
def cwu50_enable (env : Env) : Int × List Ev :=
  if env.exitSleep < 0 then
    (env.exitSleep, [Ev.dcs DcsCmd.exitSleep env.exitSleep])
  else if env.displayOn < 0 then
    (env.displayOn,
     [Ev.dcs DcsCmd.exitSleep env.exitSleep, Ev.sleep 120000 120000,
      Ev.dcs DcsCmd.displayOn env.displayOn])
  else if env.tearOn < 0 then
    (env.tearOn,
     [Ev.dcs DcsCmd.exitSleep env.exitSleep, Ev.sleep 120000 120000,
      Ev.dcs DcsCmd.displayOn env.displayOn, Ev.sleep 10000 10000,
      Ev.dcs DcsCmd.tearOnVblank env.tearOn])
  else
    (0,
     [Ev.dcs DcsCmd.exitSleep env.exitSleep, Ev.sleep 120000 120000,
      Ev.dcs DcsCmd.displayOn env.displayOn, Ev.sleep 10000 10000,
      Ev.dcs DcsCmd.tearOnVblank env.tearOn])

/-- `cwu50_disable` of `panel-clockwork-cwu50.c`: display off, 50 ms,
enter sleep, 100 ms; each failure returns immediately. -/
def cwu50_disable (env : Env) : Int × List Ev :=
  if env.displayOff < 0 then
    (env.displayOff, [Ev.dcs DcsCmd.displayOff env.displayOff])
  else if env.enterSleep < 0 then
    (env.enterSleep,
     [Ev.dcs DcsCmd.displayOff env.displayOff, Ev.sleep 50000 50000,
      Ev.dcs DcsCmd.enterSleep env.enterSleep])
  else
    (0,
     [Ev.dcs DcsCmd.displayOff env.displayOff, Ev.sleep 50000 50000,
      Ev.dcs DcsCmd.enterSleep env.enterSleep, Ev.sleep 100000 100000])

/-- `cwu50_unprepare` of `panel-clockwork-cwu50.c`: reset low, delay,
disable vci (failure only logged), delay, disable iovcc (failure only
logged); always returns 0. -/
def cwu50_unprepare (env : Env) : Int × List Ev :=
  (0,
   [Ev.resetSet false, Ev.sleep 1000 10000,
    Ev.regDisable Rail.vci env.vciDisable, Ev.sleep 1000 20000,
    Ev.regDisable Rail.iovcc env.iovccDisable])

end Clockwork

namespace Cw

/-- Init command table of `panel-cw-cwu50.c` (`cwu50_panel_init_cmds`),
as (register, value) byte pairs in source order. -/
def cwu50_panel_init_cmds : List (Nat × Nat) := [
  (0xE0, 0x00), (0xE1, 0x93), (0xE2, 0x65), (0xE3, 0xF8), (0x70, 0x20), (0x71, 0x13),
  (0x72, 0x06), (0x75, 0x03), (0xE0, 0x01), (0x00, 0x00), (0x01, 0x47), (0x03, 0x00),
  (0x04, 0x4D), (0x0C, 0x64), (0x17, 0x00), (0x18, 0xBF), (0x19, 0x00), (0x1A, 0x00),
  (0x1B, 0xBF), (0x1C, 0x00), (0x1F, 0x7E), (0x20, 0x24), (0x21, 0x24), (0x22, 0x4E),
  (0x24, 0xFE), (0x37, 0x09), (0x38, 0x04), (0x3C, 0x76), (0x3D, 0xFF), (0x3E, 0xFF),
  (0x3F, 0x7F), (0x40, 0x04), (0x41, 0xA0), (0x44, 0x11), (0x55, 0x02), (0x56, 0x01),
  (0x57, 0x49), (0x58, 0x09), (0x59, 0x2A), (0x5A, 0x1A), (0x5B, 0x1A), (0x5D, 0x78),
  (0x5E, 0x6E), (0x5F, 0x66), (0x60, 0x5E), (0x61, 0x60), (0x62, 0x54), (0x63, 0x5C),
  (0x64, 0x47), (0x65, 0x5F), (0x66, 0x5D), (0x67, 0x5B), (0x68, 0x76), (0x69, 0x61),
  (0x6A, 0x63), (0x6B, 0x50), (0x6C, 0x45), (0x6D, 0x34), (0x6E, 0x1C), (0x6F, 0x07),
  (0x70, 0x78), (0x71, 0x6E), (0x72, 0x66), (0x73, 0x5E), (0x74, 0x60), (0x75, 0x54),
  (0x76, 0x5C), (0x77, 0x47), (0x78, 0x5F), (0x79, 0x5D), (0x7A, 0x5B), (0x7B, 0x76),
  (0x7C, 0x61), (0x7D, 0x63), (0x7E, 0x50), (0x7F, 0x45), (0x80, 0x34), (0x81, 0x1C),
  (0x82, 0x07), (0xE0, 0x02), (0x00, 0x44), (0x01, 0x46), (0x02, 0x48), (0x03, 0x4A),
  (0x04, 0x40), (0x05, 0x42), (0x06, 0x1F), (0x07, 0x1F), (0x08, 0x1F), (0x09, 0x1F),
  (0x0A, 0x1F), (0x0B, 0x1F), (0x0C, 0x1F), (0x0D, 0x1F), (0x0E, 0x1F), (0x0F, 0x1F),
  (0x10, 0x1F), (0x11, 0x1F), (0x12, 0x1F), (0x13, 0x1F), (0x14, 0x1E), (0x15, 0x1F),
  (0x16, 0x45), (0x17, 0x47), (0x18, 0x49), (0x19, 0x4B), (0x1A, 0x41), (0x1B, 0x43),
  (0x1C, 0x1F), (0x1D, 0x1F), (0x1E, 0x1F), (0x1F, 0x1F), (0x20, 0x1F), (0x21, 0x1F),
  (0x22, 0x1F), (0x23, 0x1F), (0x24, 0x1F), (0x25, 0x1F), (0x26, 0x1F), (0x27, 0x1F),
  (0x28, 0x1F), (0x29, 0x1F), (0x2A, 0x1E), (0x2B, 0x1F), (0x2C, 0x0B), (0x2D, 0x09),
  (0x2E, 0x07), (0x2F, 0x05), (0x30, 0x03), (0x31, 0x01), (0x32, 0x1F), (0x33, 0x1F),
  (0x34, 0x1F), (0x35, 0x1F), (0x36, 0x1F), (0x37, 0x1F), (0x38, 0x1F), (0x39, 0x1F),
  (0x3A, 0x1F), (0x3B, 0x1F), (0x3C, 0x1F), (0x3D, 0x1F), (0x3E, 0x1F), (0x3F, 0x1F),
  (0x40, 0x1F), (0x41, 0x1E), (0x42, 0x0A), (0x43, 0x08), (0x44, 0x06), (0x45, 0x04),
  (0x46, 0x02), (0x47, 0x00), (0x48, 0x1F), (0x49, 0x1F), (0x4A, 0x1F), (0x4B, 0x1F),
  (0x4C, 0x1F), (0x4D, 0x1F), (0x4E, 0x1F), (0x4F, 0x1F), (0x50, 0x1F), (0x51, 0x1F),
  (0x52, 0x1F), (0x53, 0x1F), (0x54, 0x1F), (0x55, 0x1F), (0x56, 0x1F), (0x57, 0x1E),
  (0x58, 0x40), (0x59, 0x00), (0x5A, 0x00), (0x5B, 0x30), (0x5C, 0x02), (0x5D, 0x40),
  (0x5E, 0x01), (0x5F, 0x02), (0x60, 0x00), (0x61, 0x01), (0x62, 0x02), (0x63, 0x65),
  (0x64, 0x66), (0x65, 0x00), (0x66, 0x00), (0x67, 0x74), (0x68, 0x06), (0x69, 0x65),
  (0x6A, 0x66), (0x6B, 0x10), (0x6C, 0x00), (0x6D, 0x04), (0x6E, 0x04), (0x6F, 0x88),
  (0x70, 0x00), (0x71, 0x00), (0x72, 0x06), (0x73, 0x7B), (0x74, 0x00), (0x75, 0x87),
  (0x76, 0x00), (0x77, 0x5D), (0x78, 0x17), (0x79, 0x1F), (0x7A, 0x00), (0x7B, 0x00),
  (0x7C, 0x00), (0x7D, 0x03), (0x7E, 0x7B), (0xE0, 0x04), (0x09, 0x10), (0xE0, 0x00),
  (0xE6, 0x02), (0xE7, 0x02)]

/-- Reset pulse of `panel-cw-cwu50.c` (`cwu50_reset`):
high, wait 10 to 20 ms, low, wait 10 to 20 ms, high, sleep 120 ms. -/
def cwu50_reset : List Ev :=
  [Ev.resetSet true, Ev.sleep 10000 20000,
   Ev.resetSet false, Ev.sleep 10000 20000,
   Ev.resetSet true, Ev.sleep 120000 120000]

/-- `cwu50_init_sequence` of `panel-cw-cwu50.c`: returns 0 immediately
when the prepared flag is set; otherwise transmits the table and then
issues exit sleep mode. -/
def cwu50_init_sequence (env : Env) (prepared : Bool) : Int × List Ev :=
  if prepared then (0, [])
  else
    let r := initLoop env cwu50_panel_init_cmds 0
    if r.1 < 0 then r
    else if env.exitSleep < 0 then
      (env.exitSleep, r.2 ++ [Ev.dcs DcsCmd.exitSleep env.exitSleep])
    else
      (0, r.2 ++ [Ev.dcs DcsCmd.exitSleep env.exitSleep])

/-- `cwu50_prepare` of `panel-cw-cwu50.c`: gated on the prepared flag;
enable iovcc then vci back to back (no ramp delay), reset pulse, init
sequence (on failure: reset low, disable vci, disable iovcc); sets the
prepared flag on success. Result is (return value, trace, prepared). -/
def cwu50_prepare (env : Env) (prepared : Bool) : Int × List Ev × Bool :=
  if prepared then (0, [], true)
  else if env.iovccEnable < 0 then
    (env.iovccEnable, [Ev.regEnable Rail.iovcc env.iovccEnable], false)
  else if env.vciEnable < 0 then
    (env.vciEnable,
     [Ev.regEnable Rail.iovcc env.iovccEnable,
      Ev.regEnable Rail.vci env.vciEnable,
      Ev.regDisable Rail.iovcc env.iovccDisable], false)
  else
    let init := cwu50_init_sequence env false
    if init.1 < 0 then
      (init.1,
       [Ev.regEnable Rail.iovcc env.iovccEnable,
        Ev.regEnable Rail.vci env.vciEnable] ++ cwu50_reset ++ init.2 ++
       [Ev.resetSet false,
        Ev.regDisable Rail.vci env.vciDisable,
        Ev.regDisable Rail.iovcc env.iovccDisable], false)
    else
      (0,
       [Ev.regEnable Rail.iovcc env.iovccEnable,
        Ev.regEnable Rail.vci env.vciEnable] ++ cwu50_reset ++ init.2, true)

/-- `cwu50_enable` of `panel-cw-cwu50.c`: sleep 120 ms, display on,
sleep 20 ms, tear on; no exit-sleep command (that one was issued at the
end of the prepare init sequence). Never touches the prepared flag. -/
def cwu50_enable (env : Env) (prepared : Bool) : Int × List Ev × Bool :=
  if env.displayOn < 0 then
    (env.displayOn,
     [Ev.sleep 120000 120000, Ev.dcs DcsCmd.displayOn env.displayOn], prepared)
  else if env.tearOn < 0 then
    (env.tearOn,
     [Ev.sleep 120000 120000, Ev.dcs DcsCmd.displayOn env.displayOn,
      Ev.sleep 20000 20000, Ev.dcs DcsCmd.tearOnVblank env.tearOn], prepared)
  else
    (0,
     [Ev.sleep 120000 120000, Ev.dcs DcsCmd.displayOn env.displayOn,
      Ev.sleep 20000 20000, Ev.dcs DcsCmd.tearOnVblank env.tearOn], prepared)

/-- `cwu50_disable` of `panel-cw-cwu50.c`: a single display-off command,
returning its transport result directly. Never touches the prepared flag. -/
def cwu50_disable (env : Env) (prepared : Bool) : Int × List Ev × Bool :=
  (env.displayOff, [Ev.dcs DcsCmd.displayOff env.displayOff], prepared)

/-- `cwu50_unprepare` of `panel-cw-cwu50.c`: returns 0 immediately when
not prepared; otherwise display off, 20 ms, enter sleep, 120 ms, reset
low, 20 ms, disable vci, delay, disable iovcc (command and regulator
failures only logged), clears the prepared flag and returns 0. -/
def cwu50_unprepare (env : Env) (prepared : Bool) : Int × List Ev × Bool :=
  if prepared then
    (0,
     [Ev.dcs DcsCmd.displayOff env.displayOff, Ev.sleep 20000 20000,
      Ev.dcs DcsCmd.enterSleep env.enterSleep, Ev.sleep 120000 120000,
      Ev.resetSet false, Ev.sleep 20000 20000,
      Ev.regDisable Rail.vci env.vciDisable, Ev.sleep 1000 20000,
      Ev.regDisable Rail.iovcc env.iovccDisable], false)
  else
    (0, [], false)

end Cw

/-- Environment in which every external operation succeeds with 0. -/
def envOk : Env where
  iovccEnable := 0
  vciEnable := 0
  write := fun _ => 0
  exitSleep := 0
  displayOn := 0
  tearOn := 0
  displayOff := 0
  enterSleep := 0
  vciDisable := 0
  iovccDisable := 0

/-- Environment whose transport fails at table index 0 with -5. -/
def envFailAt0 : Env := { envOk with write := fun _ => -5 }

/-- Environment whose transport fails at table index 1 with -5. -/
def envFailAt1 : Env := { envOk with write := fun i => if i = 0 then 0 else -5 }

/-- Environment whose transport fails at table index 1 with -22. -/
def envFail2 : Env := { envOk with write := fun i => if i = 0 then 0 else -22 }

/-- Environment in which disabling the vci rail fails with -5. -/
def envVciDisFail : Env := { envOk with vciDisable := -5 }

/-- Environment in which the display-on command fails with -5. -/
def envDisplayOnFail : Env := { envOk with displayOn := -5 }

theorem initLoop_ok (env : Env) (cmds : List (Nat × Nat)) (start : Nat)
    (h : ∀ i, i < cmds.length → 0 ≤ env.write (start + i)) :
    initLoop env cmds start = (0, okTrace env cmds start) := by
  induction cmds generalizing start with
  | nil => rfl
  | cons hd tl ih =>
    obtain ⟨reg, val⟩ := hd
    have h0 : 0 ≤ env.write start := by simpa using h 0 (by simp)
    have hrec := ih (start + 1) (fun i hi => by
      have h2 := h (i + 1) (by simpa using Nat.succ_lt_succ hi)
      have e : start + (i + 1) = start + 1 + i := by omega
      rwa [e] at h2)
    simp [initLoop, okTrace, not_lt.2 h0, hrec]

theorem initLoop_fail (env : Env) (cmds : List (Nat × Nat)) (start k : Nat)
    (hk : k < cmds.length)
    (hok : ∀ i, i < k → 0 ≤ env.write (start + i))
    (hfail : env.write (start + k) < 0) :
    (initLoop env cmds start).1 = env.write (start + k) ∧
    writeSuccCount (initLoop env cmds start).2 = k ∧
    writeFailCount (initLoop env cmds start).2 = 1 := by
  induction cmds generalizing start k with
  | nil => simp at hk
  | cons hd tl ih =>
    obtain ⟨reg, val⟩ := hd
    cases k with
    | zero =>
      rw [Nat.add_zero] at hfail
      refine ⟨?_, ?_, ?_⟩ <;>
        simp [initLoop, hfail, writeSuccCount, writeFailCount, List.countP_cons,
              isWriteSucc, isWriteFail, not_le.2 hfail]
    | succ k =>
      have h0 : 0 ≤ env.write start := by simpa using hok 0 (Nat.succ_pos k)
      have hk2 : k < tl.length := by simpa using hk
      have hok2 : ∀ i, i < k → 0 ≤ env.write (start + 1 + i) := fun i hi => by
        have h2 := hok (i + 1) (Nat.succ_lt_succ hi)
        have e : start + (i + 1) = start + 1 + i := by omega
        rwa [e] at h2
      have hf2 : env.write (start + 1 + k) < 0 := by
        have e : start + (k + 1) = start + 1 + k := by omega
        rwa [e] at hfail
      obtain ⟨e1, e2, e3⟩ := ih (start + 1) k hk2 hok2 hf2
      have e : start + (k + 1) = start + 1 + k := by omega
      refine ⟨?_, ?_, ?_⟩
      · rw [e]
        simpa [initLoop, not_lt.2 h0] using e1
      · simpa [initLoop, not_lt.2 h0, writeSuccCount, List.countP_cons,
               isWriteSucc, h0] using e2
      · simpa [initLoop, not_lt.2 h0, writeFailCount, List.countP_cons,
               isWriteFail, not_lt.2 h0] using e3

theorem clockwork_init_ok (env : Env) (hw : ∀ i, 0 ≤ env.write i) :
    Clockwork.cwu50_init_sequence env =
      (0, okTrace env Clockwork.cwu50_panel_init_cmds 0) := by
  unfold Clockwork.cwu50_init_sequence
  exact initLoop_ok env _ 0 (fun i _ => hw _)

theorem clockwork_prepare_ok (env : Env)
    (h1 : 0 ≤ env.iovccEnable) (h2 : 0 ≤ env.vciEnable)
    (hw : ∀ i, 0 ≤ env.write i) :
    Clockwork.cwu50_prepare env =
      (0, [Ev.regEnable Rail.iovcc env.iovccEnable, Ev.sleep 1000 5000,
           Ev.regEnable Rail.vci env.vciEnable] ++ Clockwork.cwu50_reset ++
          okTrace env Clockwork.cwu50_panel_init_cmds 0) := by
  have hinit := clockwork_init_ok env hw
  simp [Clockwork.cwu50_prepare, not_lt.2 h1, not_lt.2 h2, hinit]

theorem cw_init_ok (env : Env) (hw : ∀ i, 0 ≤ env.write i)
    (hx : 0 ≤ env.exitSleep) :
    Cw.cwu50_init_sequence env false =
      (0, okTrace env Cw.cwu50_panel_init_cmds 0 ++
          [Ev.dcs DcsCmd.exitSleep env.exitSleep]) := by
  have hinit := initLoop_ok env Cw.cwu50_panel_init_cmds 0 (fun i _ => hw _)
  simp [Cw.cwu50_init_sequence, hinit, not_lt.2 hx]

theorem cw_prepare_ok (env : Env)
    (h1 : 0 ≤ env.iovccEnable) (h2 : 0 ≤ env.vciEnable)
    (hw : ∀ i, 0 ≤ env.write i) (hx : 0 ≤ env.exitSleep) :
    Cw.cwu50_prepare env false =
      (0, ([Ev.regEnable Rail.iovcc env.iovccEnable,
            Ev.regEnable Rail.vci env.vciEnable] ++ Cw.cwu50_reset ++
           (okTrace env Cw.cwu50_panel_init_cmds 0 ++
            [Ev.dcs DcsCmd.exitSleep env.exitSleep]), true)) := by
  have hinit := cw_init_ok env hw hx
  simp [Cw.cwu50_prepare, not_lt.2 h1, not_lt.2 h2, hinit]

theorem finalReset_clockwork_rollback (xs : List Ev) (r1 r2 : Int) :
    finalReset (xs ++ [Ev.resetSet false, Ev.sleep 10000 20000,
      Ev.regDisable Rail.vci r1, Ev.sleep 5000 20000,
      Ev.regDisable Rail.iovcc r2]) = some false := by
  unfold finalReset
  rw [List.foldl_append]
  rfl

theorem finalReset_cw_rollback (xs : List Ev) (r1 r2 : Int) :
    finalReset (xs ++ [Ev.resetSet false,
      Ev.regDisable Rail.vci r1, Ev.regDisable Rail.iovcc r2]) = some false := by
  unfold finalReset
  rw [List.foldl_append]
  rfl

theorem clockwork_prepare_fail (env : Env) (k : Nat)
    (h1 : 0 ≤ env.iovccEnable) (h2 : 0 ≤ env.vciEnable)
    (hk : k < Clockwork.cwu50_panel_init_cmds.length)
    (hok : ∀ i, i < k → 0 ≤ env.write i)
    (hfail : env.write k < 0) :
    (Clockwork.cwu50_prepare env).1 = env.write k ∧
    writeSuccCount (Clockwork.cwu50_prepare env).2 = k ∧
    writeFailCount (Clockwork.cwu50_prepare env).2 = 1 ∧
    Ev.regDisable Rail.vci env.vciDisable ∈ (Clockwork.cwu50_prepare env).2 ∧
    Ev.regDisable Rail.iovcc env.iovccDisable ∈ (Clockwork.cwu50_prepare env).2 ∧
    finalReset (Clockwork.cwu50_prepare env).2 = some false := by
  obtain ⟨e1, e2, e3⟩ := initLoop_fail env Clockwork.cwu50_panel_init_cmds 0 k hk
    (fun i hi => by simpa using hok i hi) (by simpa using hfail)
  rw [Nat.zero_add] at e1
  have hneg : (Clockwork.cwu50_init_sequence env).1 < 0 := by
    unfold Clockwork.cwu50_init_sequence
    rw [e1]
    exact hfail
  have hprep : Clockwork.cwu50_prepare env =
      ((Clockwork.cwu50_init_sequence env).1,
       [Ev.regEnable Rail.iovcc env.iovccEnable, Ev.sleep 1000 5000,
        Ev.regEnable Rail.vci env.vciEnable] ++ Clockwork.cwu50_reset ++
       (Clockwork.cwu50_init_sequence env).2 ++
       [Ev.resetSet false, Ev.sleep 10000 20000,
        Ev.regDisable Rail.vci env.vciDisable, Ev.sleep 5000 20000,
        Ev.regDisable Rail.iovcc env.iovccDisable]) := by
    simp only [Clockwork.cwu50_prepare]
    rw [if_neg (not_lt.2 h1), if_neg (not_lt.2 h2), if_pos hneg]
  have einit1 : (Clockwork.cwu50_init_sequence env).1 = env.write k := e1
  have einit2 : writeSuccCount (Clockwork.cwu50_init_sequence env).2 = k := e2
  have einit3 : writeFailCount (Clockwork.cwu50_init_sequence env).2 = 1 := e3
  refine ⟨?_, ?_, ?_, ?_, ?_, ?_⟩
  · rw [hprep]
    exact einit1
  · rw [hprep]
    simp only [writeSuccCount, List.countP_append] at einit2 ⊢
    simp [List.countP_cons, isWriteSucc, Clockwork.cwu50_reset, einit2]
  · rw [hprep]
    simp only [writeFailCount, List.countP_append] at einit3 ⊢
    simp [List.countP_cons, isWriteFail, Clockwork.cwu50_reset, einit3]
  · rw [hprep]
    simp
  · rw [hprep]
    simp
  · rw [hprep]
    simp only []
    rw [show ([Ev.regEnable Rail.iovcc env.iovccEnable, Ev.sleep 1000 5000,
        Ev.regEnable Rail.vci env.vciEnable] ++ Clockwork.cwu50_reset ++
        (Clockwork.cwu50_init_sequence env).2 ++
        [Ev.resetSet false, Ev.sleep 10000 20000,
         Ev.regDisable Rail.vci env.vciDisable, Ev.sleep 5000 20000,
         Ev.regDisable Rail.iovcc env.iovccDisable]) =
      (([Ev.regEnable Rail.iovcc env.iovccEnable, Ev.sleep 1000 5000,
         Ev.regEnable Rail.vci env.vciEnable] ++ Clockwork.cwu50_reset ++
        (Clockwork.cwu50_init_sequence env).2) ++
       [Ev.resetSet false, Ev.sleep 10000 20000,
        Ev.regDisable Rail.vci env.vciDisable, Ev.sleep 5000 20000,
        Ev.regDisable Rail.iovcc env.iovccDisable]) from rfl]
    exact finalReset_clockwork_rollback _ env.vciDisable env.iovccDisable

theorem cw_init_fail (env : Env) (k : Nat)
    (hk : k < Cw.cwu50_panel_init_cmds.length)
    (hok : ∀ i, i < k → 0 ≤ env.write i)
    (hfail : env.write k < 0) :
    Cw.cwu50_init_sequence env false = initLoop env Cw.cwu50_panel_init_cmds 0 := by
  obtain ⟨e1, _, _⟩ := initLoop_fail env Cw.cwu50_panel_init_cmds 0 k hk
    (fun i hi => by simpa using hok i hi) (by simpa using hfail)
  rw [Nat.zero_add] at e1
  have hneg : (initLoop env Cw.cwu50_panel_init_cmds 0).1 < 0 := by
    rw [e1]
    exact hfail
  simp [Cw.cwu50_init_sequence, hneg]

theorem cw_prepare_fail (env : Env) (k : Nat)
    (h1 : 0 ≤ env.iovccEnable) (h2 : 0 ≤ env.vciEnable)
    (hk : k < Cw.cwu50_panel_init_cmds.length)
    (hok : ∀ i, i < k → 0 ≤ env.write i)
    (hfail : env.write k < 0) :
    (Cw.cwu50_prepare env false).1 = env.write k ∧
    writeSuccCount (Cw.cwu50_prepare env false).2.1 = k ∧
    writeFailCount (Cw.cwu50_prepare env false).2.1 = 1 ∧
    Ev.regDisable Rail.vci env.vciDisable ∈ (Cw.cwu50_prepare env false).2.1 ∧
    Ev.regDisable Rail.iovcc env.iovccDisable ∈ (Cw.cwu50_prepare env false).2.1 ∧
    finalReset (Cw.cwu50_prepare env false).2.1 = some false ∧
    (Cw.cwu50_prepare env false).2.2 = false := by
  obtain ⟨e1, e2, e3⟩ := initLoop_fail env Cw.cwu50_panel_init_cmds 0 k hk
    (fun i hi => by simpa using hok i hi) (by simpa using hfail)
  rw [Nat.zero_add] at e1
  have hseq := cw_init_fail env k hk hok hfail
  have hneg : (Cw.cwu50_init_sequence env false).1 < 0 := by
    rw [hseq, e1]
    exact hfail
  have hprep : Cw.cwu50_prepare env false =
      ((Cw.cwu50_init_sequence env false).1,
       [Ev.regEnable Rail.iovcc env.iovccEnable,
        Ev.regEnable Rail.vci env.vciEnable] ++ Cw.cwu50_reset ++
       (Cw.cwu50_init_sequence env false).2 ++
       [Ev.resetSet false,
        Ev.regDisable Rail.vci env.vciDisable,
        Ev.regDisable Rail.iovcc env.iovccDisable], false) := by
    simp only [Cw.cwu50_prepare]
    rw [if_neg (Bool.false_ne_true), if_neg (not_lt.2 h1), if_neg (not_lt.2 h2),
        if_pos hneg]
  have einit1 : (Cw.cwu50_init_sequence env false).1 = env.write k := by
    rw [hseq]
    exact e1
  have einit2 : writeSuccCount (Cw.cwu50_init_sequence env false).2 = k := by
    rw [hseq]
    exact e2
  have einit3 : writeFailCount (Cw.cwu50_init_sequence env false).2 = 1 := by
    rw [hseq]
    exact e3
  refine ⟨?_, ?_, ?_, ?_, ?_, ?_, ?_⟩
  · rw [hprep]
    exact einit1
  · rw [hprep]
    simp only [writeSuccCount, List.countP_append] at einit2 ⊢
    simp [List.countP_cons, isWriteSucc, Cw.cwu50_reset, einit2]
  · rw [hprep]
    simp only [writeFailCount, List.countP_append] at einit3 ⊢
    simp [List.countP_cons, isWriteFail, Cw.cwu50_reset, einit3]
  · rw [hprep]
    simp
  · rw [hprep]
    simp
  · rw [hprep]
    simp only []
    rw [show ([Ev.regEnable Rail.iovcc env.iovccEnable,
        Ev.regEnable Rail.vci env.vciEnable] ++ Cw.cwu50_reset ++
        (Cw.cwu50_init_sequence env false).2 ++
        [Ev.resetSet false,
         Ev.regDisable Rail.vci env.vciDisable,
         Ev.regDisable Rail.iovcc env.iovccDisable]) =
      (([Ev.regEnable Rail.iovcc env.iovccEnable,
         Ev.regEnable Rail.vci env.vciEnable] ++ Cw.cwu50_reset ++
        (Cw.cwu50_init_sequence env false).2) ++
       [Ev.resetSet false,
        Ev.regDisable Rail.vci env.vciDisable,
        Ev.regDisable Rail.iovcc env.iovccDisable]) from rfl]
    exact finalReset_cw_rollback _ env.vciDisable env.iovccDisable
  · rw [hprep]

set_option maxRecDepth 4096 in
/-- Claim C1: the claim mandates, for every successful prepare call, the
exact effect order IOVCC-enable, delay, VCI-enable, reset high, delay,
reset low, delay, reset high, delay, then the table writes and nothing
else. The `panel-cw-cwu50.c` variant breaks it: in a successful prepare
from the unprepared state, the second hardware effect is the VCI enable
(there is no delay after the IOVCC enable), and the last effect is an
exit-sleep DCS command issued after the final table write. -/
theorem C1_cw_order_cex :
    (Cw.cwu50_prepare envOk false).1 = 0 ∧
    ((Cw.cwu50_prepare envOk false).2.1)[1]? = some (Ev.regEnable Rail.vci 0) ∧
    ((Cw.cwu50_prepare envOk false).2.1).getLast? =
      some (Ev.dcs DcsCmd.exitSleep 0) := by
  have h := cw_prepare_ok envOk (le_refl 0) (le_refl 0) (fun i => le_refl 0) (le_refl 0)
  rw [h]
  refine ⟨rfl, by decide, by decide⟩

/-- Claim C1 (amended): a successful prepare of `panel-clockwork-cwu50.c`
observes exactly IOVCC-enable, delay, VCI-enable, reset high, delay,
reset low, delay, reset high, delay, then the table writes in order and
nothing else; a successful prepare of `panel-cw-cwu50.c` from the
unprepared state observes IOVCC-enable, VCI-enable (no delay in
between), the reset pulse, the table writes in order, then one
exit-sleep command; a prepare of that variant on an already prepared
handle performs no hardware effects at all. -/
theorem C1_prepare_order (env : Env)
    (h1 : 0 ≤ env.iovccEnable) (h2 : 0 ≤ env.vciEnable)
    (hw : ∀ i, 0 ≤ env.write i) (hx : 0 ≤ env.exitSleep) :
    Clockwork.cwu50_prepare env =
      (0, [Ev.regEnable Rail.iovcc env.iovccEnable, Ev.sleep 1000 5000,
           Ev.regEnable Rail.vci env.vciEnable] ++ Clockwork.cwu50_reset ++
          okTrace env Clockwork.cwu50_panel_init_cmds 0) ∧
    Cw.cwu50_prepare env false =
      (0, ([Ev.regEnable Rail.iovcc env.iovccEnable,
            Ev.regEnable Rail.vci env.vciEnable] ++ Cw.cwu50_reset ++
           (okTrace env Cw.cwu50_panel_init_cmds 0 ++
            [Ev.dcs DcsCmd.exitSleep env.exitSleep]), true)) ∧
    Cw.cwu50_prepare env true = (0, [], true) :=
  ⟨clockwork_prepare_ok env h1 h2 hw, cw_prepare_ok env h1 h2 hw hx, rfl⟩

/-- Witness for C1_prepare_order at the all-success environment. -/
theorem C1_prepare_order_witness :
    (Clockwork.cwu50_prepare envOk).1 = 0 ∧
    (Cw.cwu50_prepare envOk false).1 = 0 := by
  have h := C1_prepare_order envOk (le_refl 0) (le_refl 0)
    (fun i => le_refl 0) (le_refl 0)
  exact ⟨by rw [h.1], by rw [h.2.1]⟩

/-- Claim C3: the claim asserts prepare is idempotent for every handle.
The `panel-clockwork-cwu50.c` variant keeps no prepared flag and its
prepare callback depends on no handle state, so a second call after the
successful first one shown here repeats the same nonempty hardware
trace instead of performing zero additional hardware I/O. -/
theorem C3_clockwork_not_idempotent_cex :
    (Clockwork.cwu50_prepare envOk).1 = 0 ∧
    (Clockwork.cwu50_prepare envOk).2 ≠ [] := by
  have h := clockwork_prepare_ok envOk (le_refl 0) (le_refl 0) (fun i => le_refl 0)
  rw [h]
  exact ⟨rfl, by simp⟩

/-- Claim C3 (amended): in the `panel-cw-cwu50.c` variant, which gates on
the prepared flag, a prepare call on an already prepared handle returns
success and performs zero additional hardware I/O; the
`panel-clockwork-cwu50.c` variant has no such gate and re-runs the full
hardware sequence on every prepare call. -/
theorem C3_cw_prepare_idempotent (env : Env) :
    Cw.cwu50_prepare env true = (0, [], true) := rfl

/-- Claim C9: the initialization command tables of the two driver
variants are identical sequences of (register, value) byte pairs. -/
theorem C9_tables_identical :
    Clockwork.cwu50_panel_init_cmds = Cw.cwu50_panel_init_cmds := rfl

/-- Claim C10: in the `panel-cw-cwu50.c` variant (the one with a
prepared flag) enable and disable neither read nor modify the flag:
their output state equals their input state, and their return value and
trace are independent of it; prepare never clears an already-set flag
and unprepare always leaves it cleared, so only prepare sets it and only
unprepare clears it. The `panel-clockwork-cwu50.c` handle holds no
mutable field at all, which the embedding reflects by giving its enable
and disable no state argument. -/
theorem C10_enable_disable_frame (env : Env) (p q : Bool) :
    (Cw.cwu50_enable env p).2.2 = p ∧
    (Cw.cwu50_disable env p).2.2 = p ∧
    (Cw.cwu50_enable env p).1 = (Cw.cwu50_enable env q).1 ∧
    (Cw.cwu50_enable env p).2.1 = (Cw.cwu50_enable env q).2.1 ∧
    (Cw.cwu50_disable env p).1 = (Cw.cwu50_disable env q).1 ∧
    (Cw.cwu50_disable env p).2.1 = (Cw.cwu50_disable env q).2.1 ∧
    (Cw.cwu50_prepare env true).2.2 = true ∧
    (Cw.cwu50_unprepare env p).2.2 = false := by
  unfold Cw.cwu50_enable Cw.cwu50_disable Cw.cwu50_prepare Cw.cwu50_unprepare
  refine ⟨?_, rfl, ?_, ?_, rfl, rfl, rfl, ?_⟩ <;> cases p <;> split_ifs <;> rfl

/-- Claim C2: in both variants, if the K-th table command (1 ≤ K ≤ N)
fails during a prepare from the unprepared state with both rail enables
succeeding, then the trace holds exactly K-1 successful transport writes
and 1 failed one (so no later entry is attempted), prepare returns the
transport error, a disable was issued for both rails, and the reset line
ends low. -/
theorem C2_symmetric_rollback (env : Env) (K : Nat)
    (h1 : 0 ≤ env.iovccEnable) (h2 : 0 ≤ env.vciEnable)
    (hK1 : 1 ≤ K) (hKN : K ≤ Clockwork.cwu50_panel_init_cmds.length)
    (hok : ∀ i, i < K - 1 → 0 ≤ env.write i)
    (hfail : env.write (K - 1) < 0) :
    ((Clockwork.cwu50_prepare env).1 = env.write (K - 1) ∧
     writeSuccCount (Clockwork.cwu50_prepare env).2 = K - 1 ∧
     writeFailCount (Clockwork.cwu50_prepare env).2 = 1 ∧
     Ev.regDisable Rail.vci env.vciDisable ∈ (Clockwork.cwu50_prepare env).2 ∧
     Ev.regDisable Rail.iovcc env.iovccDisable ∈ (Clockwork.cwu50_prepare env).2 ∧
     finalReset (Clockwork.cwu50_prepare env).2 = some false) ∧
    ((Cw.cwu50_prepare env false).1 = env.write (K - 1) ∧
     writeSuccCount (Cw.cwu50_prepare env false).2.1 = K - 1 ∧
     writeFailCount (Cw.cwu50_prepare env false).2.1 = 1 ∧
     Ev.regDisable Rail.vci env.vciDisable ∈ (Cw.cwu50_prepare env false).2.1 ∧
     Ev.regDisable Rail.iovcc env.iovccDisable ∈ (Cw.cwu50_prepare env false).2.1 ∧
     finalReset (Cw.cwu50_prepare env false).2.1 = some false) := by
  have hlen : Clockwork.cwu50_panel_init_cmds.length =
      Cw.cwu50_panel_init_cmds.length := rfl
  have hk : K - 1 < Clockwork.cwu50_panel_init_cmds.length := by omega
  have hk2 : K - 1 < Cw.cwu50_panel_init_cmds.length := by omega
  obtain ⟨a, b, c, d, e, f, _⟩ := cw_prepare_fail env (K - 1) h1 h2 hk2 hok hfail
  exact ⟨clockwork_prepare_fail env (K - 1) h1 h2 hk hok hfail, a, b, c, d, e, f⟩

/-- Witness for C2_symmetric_rollback: table entry 2 (K = 2) fails with
-22; one successful write, one failed write, both rails disabled, reset
low, in both variants. -/
theorem C2_symmetric_rollback_witness :
    (Clockwork.cwu50_prepare envFail2).1 = -22 ∧
    writeSuccCount (Clockwork.cwu50_prepare envFail2).2 = 1 ∧
    writeFailCount (Clockwork.cwu50_prepare envFail2).2 = 1 ∧
    finalReset (Clockwork.cwu50_prepare envFail2).2 = some false ∧
    (Cw.cwu50_prepare envFail2 false).1 = -22 ∧
    finalReset (Cw.cwu50_prepare envFail2 false).2.1 = some false := by
  have h := C2_symmetric_rollback envFail2 2 (le_refl 0) (le_refl 0)
    (by omega) (by decide)
    (fun i hi => by
      have hi0 : i = 0 := by omega
      subst hi0
      decide)
    (by decide)
  obtain ⟨⟨a1, a2, a3, _, _, a6⟩, ⟨b1, _, _, _, _, b6⟩⟩ := h
  refine ⟨?_, by rw [a2], a3, a6, ?_, b6⟩
  · rw [a1]
    decide
  · rw [b1]
    decide

/-- Claim C4: unprepare is total in both variants: for every environment
(the regulator disable return codes are arbitrary, so each of the two
disables may succeed or fail in any combination) and every starting
state it returns 0, the `panel-cw-cwu50.c` variant always ends with the
prepared flag cleared, and whenever teardown runs (clockwork always; cw
from the prepared state) the iovcc disable is attempted after the vci
disable, whatever result that vci disable reported. -/
theorem C4_unprepare_total (env : Env) (p : Bool) :
    (Clockwork.cwu50_unprepare env).1 = 0 ∧
    Ev.regDisable Rail.iovcc env.iovccDisable ∈ (Clockwork.cwu50_unprepare env).2 ∧
    (Cw.cwu50_unprepare env p).1 = 0 ∧
    (Cw.cwu50_unprepare env p).2.2 = false ∧
    (p = true →
      Ev.regDisable Rail.iovcc env.iovccDisable ∈ (Cw.cwu50_unprepare env p).2.1) := by
  refine ⟨rfl, by simp [Clockwork.cwu50_unprepare], ?_, ?_, ?_⟩ <;>
    cases p <;> simp [Cw.cwu50_unprepare]

/-- Witness for C4_unprepare_total with a failing vci disable on a
prepared handle. -/
theorem C4_unprepare_total_witness :
    (Clockwork.cwu50_unprepare envVciDisFail).1 = 0 ∧
    (Cw.cwu50_unprepare envVciDisFail true).1 = 0 ∧
    (Cw.cwu50_unprepare envVciDisFail true).2.2 = false ∧
    Ev.regDisable Rail.iovcc 0 ∈ (Cw.cwu50_unprepare envVciDisFail true).2.1 := by
  have h := C4_unprepare_total envVciDisFail true
  exact ⟨h.1, h.2.2.1, h.2.2.2.1, h.2.2.2.2 rfl⟩

/-- Claim C5: the claim says the transmitter reports both the failing
entry index and the underlying error to its caller. The code returns
only the underlying error: the two runs below fail at different indices
(0 successful writes versus 1) yet return the identical value -5, so the
caller cannot recover the index from what the function reports. -/
theorem C5_index_not_reported_cex :
    (Clockwork.cwu50_init_sequence envFailAt0).1 =
      (Clockwork.cwu50_init_sequence envFailAt1).1 ∧
    writeSuccCount (Clockwork.cwu50_init_sequence envFailAt0).2 = 0 ∧
    writeSuccCount (Clockwork.cwu50_init_sequence envFailAt1).2 = 1 := by
  refine ⟨by decide, by decide, by decide⟩

/-- Claim C5 (amended): both transmitters iterate the table in order and
stop at the first transport failure: when the first failure is at index
k the trace holds exactly k successful writes and that one failed write,
no later entry is attempted, and the underlying transport error (alone,
without the index) is returned to the caller. -/
theorem C5_stop_on_first_failure (env : Env) (k : Nat)
    (hk : k < Clockwork.cwu50_panel_init_cmds.length)
    (hok : ∀ i, i < k → 0 ≤ env.write i)
    (hfail : env.write k < 0) :
    (Clockwork.cwu50_init_sequence env).1 = env.write k ∧
    writeSuccCount (Clockwork.cwu50_init_sequence env).2 = k ∧
    writeFailCount (Clockwork.cwu50_init_sequence env).2 = 1 ∧
    (Cw.cwu50_init_sequence env false).1 = env.write k ∧
    writeSuccCount (Cw.cwu50_init_sequence env false).2 = k ∧
    writeFailCount (Cw.cwu50_init_sequence env false).2 = 1 := by
  have hk2 : k < Cw.cwu50_panel_init_cmds.length := hk
  obtain ⟨e1, e2, e3⟩ := initLoop_fail env Clockwork.cwu50_panel_init_cmds 0 k hk
    (fun i hi => by simpa using hok i hi) (by simpa using hfail)
  rw [Nat.zero_add] at e1
  have hseq := cw_init_fail env k hk2 hok hfail
  refine ⟨e1, e2, e3, ?_, ?_, ?_⟩ <;> rw [hseq]
  · exact e1
  · exact e2
  · exact e3

/-- Witness for C5_stop_on_first_failure: first failure at index 1. -/
theorem C5_stop_on_first_failure_witness :
    (Clockwork.cwu50_init_sequence envFailAt1).1 = -5 ∧
    writeSuccCount (Cw.cwu50_init_sequence envFailAt1 false).2 = 1 := by
  have h := C5_stop_on_first_failure envFailAt1 1 (by decide)
    (fun i hi => by
      have hi0 : i = 0 := by omega
      subst hi0
      decide)
    (by decide)
  refine ⟨?_, h.2.2.2.2.1⟩
  rw [h.1]
  decide

/-- Claim C6: the claim requires every successful enable to start by
issuing the exit-sleep-mode command. The successful enable of
`panel-cw-cwu50.c` shown here contains no exit-sleep command at all
(the variant issues it during prepare instead). -/
theorem C6_cw_enable_cex :
    (Cw.cwu50_enable envOk false).1 = 0 ∧
    ((Cw.cwu50_enable envOk false).2.1).countP isExitSleepCmd = 0 := by
  refine ⟨rfl, by decide⟩

/-- Claim C6 (amended): a successful enable of `panel-clockwork-cwu50.c`
performs exactly exit sleep, 120 ms wait, display on, 10 ms wait (within
the stated 10 to 20 ms), tear on vblank-aligned; in `panel-cw-cwu50.c` a
successful enable performs 120 ms wait, display on, 20 ms wait, tear on,
with the exit-sleep command having been issued during prepare. -/
theorem C6_enable_order (env : Env) (p : Bool)
    (hx : 0 ≤ env.exitSleep) (hd : 0 ≤ env.displayOn) (ht : 0 ≤ env.tearOn) :
    Clockwork.cwu50_enable env =
      (0, [Ev.dcs DcsCmd.exitSleep env.exitSleep, Ev.sleep 120000 120000,
           Ev.dcs DcsCmd.displayOn env.displayOn, Ev.sleep 10000 10000,
           Ev.dcs DcsCmd.tearOnVblank env.tearOn]) ∧
    Cw.cwu50_enable env p =
      (0, [Ev.sleep 120000 120000, Ev.dcs DcsCmd.displayOn env.displayOn,
           Ev.sleep 20000 20000, Ev.dcs DcsCmd.tearOnVblank env.tearOn], p) := by
  constructor <;>
    simp [Clockwork.cwu50_enable, Cw.cwu50_enable,
          not_lt.2 hx, not_lt.2 hd, not_lt.2 ht]

/-- Witness for C6_enable_order at the all-success environment. -/
theorem C6_enable_order_witness :
    (Clockwork.cwu50_enable envOk).1 = 0 ∧ (Cw.cwu50_enable envOk false).1 = 0 := by
  have h := C6_enable_order envOk false (le_refl 0) (le_refl 0) (le_refl 0)
  exact ⟨by rw [h.1], by rw [h.2]⟩

/-- Claim C7: the claim requires every successful disable to perform
display off, a wait of at least 50 ms, enter sleep, then a wait of at
least 100 ms. The successful disable of `panel-cw-cwu50.c` shown here
performs a single display-off command with no waits and no enter-sleep
(that variant only enters sleep mode during unprepare). -/
theorem C7_cw_disable_cex :
    Cw.cwu50_disable envOk false = (0, [Ev.dcs DcsCmd.displayOff 0], false) := rfl

/-- Claim C7 (amended): a successful disable of `panel-clockwork-cwu50.c`
performs exactly display off, 50 ms wait, enter sleep, 100 ms wait; a
disable of `panel-cw-cwu50.c` performs only the display-off command and
returns its transport result. -/
theorem C7_disable_order (env : Env) (p : Bool)
    (hd : 0 ≤ env.displayOff) (he : 0 ≤ env.enterSleep) :
    Clockwork.cwu50_disable env =
      (0, [Ev.dcs DcsCmd.displayOff env.displayOff, Ev.sleep 50000 50000,
           Ev.dcs DcsCmd.enterSleep env.enterSleep, Ev.sleep 100000 100000]) ∧
    Cw.cwu50_disable env p =
      (env.displayOff, [Ev.dcs DcsCmd.displayOff env.displayOff], p) :=
  ⟨by simp [Clockwork.cwu50_disable, not_lt.2 hd, not_lt.2 he], rfl⟩

/-- Witness for C7_disable_order at the all-success environment. -/
theorem C7_disable_order_witness :
    (Clockwork.cwu50_disable envOk).1 = 0 ∧ (Cw.cwu50_disable envOk false).1 = 0 := by
  have h := C7_disable_order envOk false (le_refl 0) (le_refl 0)
  exact ⟨by rw [h.1], by rw [h.2]; rfl⟩

/-- Claim C8: enable is forward-only on failure. In
`panel-clockwork-cwu50.c`, when exit sleep succeeds and display on
fails, enable returns the display-on error and the trace ends at the
failed display-on: no enter-sleep command, no regulator operation, no
reset-line write follows. The same holds for the display-on failure in
`panel-cw-cwu50.c` (whose enable issues no exit-sleep at all). -/
theorem C8_enable_forward_only (env : Env) (p : Bool)
    (hx : 0 ≤ env.exitSleep) (hd : env.displayOn < 0) :
    Clockwork.cwu50_enable env =
      (env.displayOn,
       [Ev.dcs DcsCmd.exitSleep env.exitSleep, Ev.sleep 120000 120000,
        Ev.dcs DcsCmd.displayOn env.displayOn]) ∧
    Cw.cwu50_enable env p =
      (env.displayOn,
       [Ev.sleep 120000 120000, Ev.dcs DcsCmd.displayOn env.displayOn], p) := by
  constructor <;>
    simp [Clockwork.cwu50_enable, Cw.cwu50_enable, not_lt.2 hx, hd]

/-- Witness for C8_enable_forward_only with display on failing with -5. -/
theorem C8_enable_forward_only_witness :
    (Clockwork.cwu50_enable envDisplayOnFail).1 = -5 ∧
    (Cw.cwu50_enable envDisplayOnFail false).1 = -5 := by
  have h := C8_enable_forward_only envDisplayOnFail false (le_refl 0) (by decide)
  exact ⟨by rw [h.1]; rfl, by rw [h.2]; rfl⟩

end CWU50
